import Mathlib

/-!
Shallow embedding of `src/checksum.rs` (crate `checksum`): the Luhn and the
Verhoeff check-digit algorithms behind the `CheckDigitAlgorithm` trait.

Machine integers of the source (`u64` inputs, the `u32` sum accumulator, the
`u8` loop counters and results) are embedded as `Nat`; the claims carry the
`u64` range preconditions explicitly, and the development proves separately
that inside those ranges every intermediate value of the source stays inside
its machine type (see the u64-checked models further down).  Each `loop`
of the source becomes a well-founded recursion on the value being divided
by ten, with the loop body split off as an explicit step function.
-/

/-- Largest value representable in Rust's `u64`. -/
def U64_MAX : Nat := 2 ^ 64 - 1

namespace LuhnAlgorithm

/-- One iteration body of the scan loop in `LuhnAlgorithm::digit_sum`, after
the counter has already been incremented: position `i` (1-based from the
right) receives `digit`; even positions double the digit and subtract 9 when
the doubled value exceeds 9, odd positions add the digit unmodified. -/
def digitStep (i digit sum : Nat) : Nat :=
  if i % 2 = 0 then
    sum + (if digit * 2 > 9 then digit * 2 - 9 else digit * 2)
  else
    sum + digit

/-- The right-to-left scan loop of `LuhnAlgorithm::digit_sum`: `numPreDiv`
and `sum` are the loop-carried `num_pre_div` and `sum`, `i` the counter
before its `i += 1`; the digit is computed as `num_pre_div - num_post_div * 10`
and the loop exits when `num_post_div == 0`. -/
def digitSumGo (numPreDiv i sum : Nat) : Nat :=
  if h : numPreDiv / 10 = 0 then
    digitStep (i + 1) (numPreDiv - numPreDiv / 10 * 10) sum
  else
    digitSumGo (numPreDiv / 10) (i + 1)
      (digitStep (i + 1) (numPreDiv - numPreDiv / 10 * 10) sum)
termination_by numPreDiv
decreasing_by omega

/-- `LuhnAlgorithm::digit_sum`. -/
def digit_sum (num : Nat) : Nat := digitSumGo num 0 0

/-- `LuhnAlgorithm::checksum` of the `CheckDigitAlgorithm` impl. -/
def checksum (num : Nat) : Nat := digit_sum num % 10

/-- `LuhnAlgorithm::calculate_check_digit`. -/
def calculate_check_digit (num : Nat) : Nat := digit_sum (num * 10) * 9 % 10

/-- `LuhnAlgorithm::is_valid`. -/
def is_valid (num : Nat) : Bool := checksum num == 0

end LuhnAlgorithm

/-- The dihedral-group multiplication table `VERHOEFF_D_TABLE`. -/
def VERHOEFF_D_TABLE : List (List Nat) :=
  [[0, 1, 2, 3, 4, 5, 6, 7, 8, 9],
   [1, 2, 3, 4, 0, 6, 7, 8, 9, 5],
   [2, 3, 4, 0, 1, 7, 8, 9, 5, 6],
   [3, 4, 0, 1, 2, 8, 9, 5, 6, 7],
   [4, 0, 1, 2, 3, 9, 5, 6, 7, 8],
   [5, 9, 8, 7, 6, 0, 4, 3, 2, 1],
   [6, 5, 9, 8, 7, 1, 0, 4, 3, 2],
   [7, 6, 5, 9, 8, 2, 1, 0, 4, 3],
   [8, 7, 6, 5, 9, 3, 2, 1, 0, 4],
   [9, 8, 7, 6, 5, 4, 3, 2, 1, 0]]

/-- The inverse table `VERHOEFF_INV_D_TABLE`. -/
def VERHOEFF_INV_D_TABLE : List Nat := [0, 4, 3, 2, 1, 5, 6, 7, 8, 9]

/-- The permutation table `VERHOEFF_P_TABLE`. -/
def VERHOEFF_P_TABLE : List (List Nat) :=
  [[0, 1, 2, 3, 4, 5, 6, 7, 8, 9],
   [1, 5, 7, 6, 2, 8, 3, 0, 9, 4],
   [5, 8, 0, 3, 7, 9, 6, 1, 4, 2],
   [8, 9, 1, 6, 0, 4, 3, 5, 2, 7],
   [9, 4, 5, 3, 1, 2, 6, 8, 7, 0],
   [4, 2, 8, 6, 5, 7, 3, 9, 0, 1],
   [2, 7, 9, 3, 8, 0, 6, 4, 1, 5],
   [7, 0, 4, 6, 9, 1, 3, 2, 5, 8]]

namespace VerhoeffAlgorithm

/-- `VERHOEFF_D_TABLE[c][p]` (indices are in range at every use site, proved
below; out-of-range reads are modelled separately by the checked variant). -/
def dLookup (c p : Nat) : Nat := (VERHOEFF_D_TABLE.getD c []).getD p 0

/-- `VERHOEFF_P_TABLE[r][d]`. -/
def pLookup (r d : Nat) : Nat := (VERHOEFF_P_TABLE.getD r []).getD d 0

/-- `VERHOEFF_INV_D_TABLE[c]`. -/
def invDLookup (c : Nat) : Nat := VERHOEFF_INV_D_TABLE.getD c 0

/-- One iteration body of the scan loop in `VerhoeffAlgorithm::checksum`:
`c = VERHOEFF_D_TABLE[c][VERHOEFF_P_TABLE[(i % 8)][digit]]`, with `i` the
0-based position used before its `i += 1`. -/
def step (i c digit : Nat) : Nat := dLookup c (pLookup (i % 8) digit)

/-- The right-to-left scan loop of `VerhoeffAlgorithm::checksum`, exiting
when `num_post_div == 0`. -/
def checksumGo (numPreDiv i c : Nat) : Nat :=
  if h : numPreDiv / 10 = 0 then
    step i c (numPreDiv - numPreDiv / 10 * 10)
  else
    checksumGo (numPreDiv / 10) (i + 1) (step i c (numPreDiv - numPreDiv / 10 * 10))
termination_by numPreDiv
decreasing_by omega

/-- `VerhoeffAlgorithm::checksum` of the `CheckDigitAlgorithm` impl. -/
def checksum (num : Nat) : Nat := checksumGo num 0 0

/-- `VerhoeffAlgorithm::calculate_check_digit`. -/
def calculate_check_digit (num : Nat) : Nat := invDLookup (checksum (num * 10))

/-- `VerhoeffAlgorithm::is_valid`. -/
def is_valid (num : Nat) : Bool := checksum num == 0

end VerhoeffAlgorithm

/-- The least-significant-first decimal digit string of a number, exactly the
digit sequence the two scan loops consume: `0` yields the single digit `[0]`,
and the most significant entry of a multi-digit string is nonzero. -/
def natDigits (num : Nat) : List Nat :=
  if h : num / 10 = 0 then [num % 10] else num % 10 :: natDigits (num / 10)
termination_by num
decreasing_by omega

/-- Numeric value of a least-significant-first digit string. -/
def digitsVal : List Nat → Nat
  | [] => 0
  | d :: ds => d + 10 * digitsVal ds

/-- Swap the adjacent entries at positions `k` and `k + 1` of a list
(identity when `k + 1` is out of range). -/
def swapAdj : Nat → List Nat → List Nat
  | 0, a :: b :: t => b :: a :: t
  | k + 1, a :: t => a :: swapAdj k t
  | _, l => l

/-- Structural restatement of the Verhoeff scan over an explicit digit
string: folding `VerhoeffAlgorithm.step` from position `i` and accumulator
`c`. -/
def vfold : List Nat → Nat → Nat → Nat
  | [], _, c => c
  | d :: ds, i, c => vfold ds (i + 1) (VerhoeffAlgorithm.step i c d)

/-- Structural restatement of the Luhn scan over an explicit digit string:
folding `LuhnAlgorithm.digitStep` from position `i` and running sum `s`. -/
def luhnFold : List Nat → Nat → Nat → Nat
  | [], _, s => s
  | d :: ds, i, s => luhnFold ds (i + 1) (LuhnAlgorithm.digitStep (i + 1) d s)

/-- Iteration count of the right-to-left scan-loop control structure shared
verbatim by `LuhnAlgorithm::digit_sum` and `VerhoeffAlgorithm::checksum`:
divide by ten each round and exit when `num_post_div == 0`; the first round
always runs (`loop` is do-while shaped). -/
def scanIters (numPreDiv : Nat) : Nat :=
  if h : numPreDiv / 10 = 0 then 1 else 1 + scanIters (numPreDiv / 10)
termination_by numPreDiv
decreasing_by omega

/-- `VERHOEFF_D_TABLE[c][p]` with Rust's panicking bounds check made
explicit: `none` models the out-of-range panic. -/
def dLookupChecked (c p : Nat) : Option Nat :=
  (VERHOEFF_D_TABLE.get? c).bind (fun row => row.get? p)

/-- `VERHOEFF_P_TABLE[r][d]` with the bounds check made explicit. -/
def pLookupChecked (r d : Nat) : Option Nat :=
  (VERHOEFF_P_TABLE.get? r).bind (fun row => row.get? d)

/-- The Verhoeff scan loop with every table indexing bounds-checked:
returns `none` exactly when some indexing of the source would panic. -/
def checksumGoChecked (numPreDiv i c : Nat) : Option Nat :=
  (pLookupChecked (i % 8) (numPreDiv - numPreDiv / 10 * 10)).bind (fun p =>
    (dLookupChecked c p).bind (fun c2 =>
      if h : numPreDiv / 10 = 0 then some c2
      else checksumGoChecked (numPreDiv / 10) (i + 1) c2))
termination_by numPreDiv
decreasing_by omega

/-- u64 model of `LuhnAlgorithm::calculate_check_digit`: its internal
multiplication `num * 10` is performed on `u64`, so the operation is only
defined when `num * 10` stays in range (debug Rust panics on the overflow,
release Rust silently wraps); `none` models the out-of-range case. -/
def luhnCalcCheckDigitU64 (num : Nat) : Option Nat :=
  if num * 10 ≤ U64_MAX then some (LuhnAlgorithm.calculate_check_digit num) else none

/-- u64 model of `VerhoeffAlgorithm::calculate_check_digit`, with the same
`num * 10` range condition. -/
def verhoeffCalcCheckDigitU64 (num : Nat) : Option Nat :=
  if num * 10 ≤ U64_MAX then some (VerhoeffAlgorithm.calculate_check_digit num) else none

/-! ### Unfolding equations for the well-founded scan loops -/

/-- One-step unfolding of the Luhn scan loop. -/
theorem digitSumGo_eq (m i s : Nat) :
    LuhnAlgorithm.digitSumGo m i s =
      if m / 10 = 0 then LuhnAlgorithm.digitStep (i + 1) (m - m / 10 * 10) s
      else LuhnAlgorithm.digitSumGo (m / 10) (i + 1)
        (LuhnAlgorithm.digitStep (i + 1) (m - m / 10 * 10) s) := by
  rw [LuhnAlgorithm.digitSumGo]
  rfl

/-- One-step unfolding of the Verhoeff scan loop. -/
theorem checksumGo_eq (m i c : Nat) :
    VerhoeffAlgorithm.checksumGo m i c =
      if m / 10 = 0 then VerhoeffAlgorithm.step i c (m - m / 10 * 10)
      else VerhoeffAlgorithm.checksumGo (m / 10) (i + 1)
        (VerhoeffAlgorithm.step i c (m - m / 10 * 10)) := by
  rw [VerhoeffAlgorithm.checksumGo]
  rfl

/-- One-step unfolding of the digit-string extraction. -/
theorem natDigits_eq (num : Nat) :
    natDigits num =
      if num / 10 = 0 then [num % 10] else num % 10 :: natDigits (num / 10) := by
  rw [natDigits]
  rfl

/-! ### Facts checked once over the fixed Verhoeff tables -/

/-- Every entry of the multiplication table is a digit. -/
theorem dLookup_lt : ∀ c < 10, ∀ p < 10, VerhoeffAlgorithm.dLookup c p < 10 := by decide

/-- Every entry of the permutation table is a digit. -/
theorem pLookup_lt : ∀ r < 8, ∀ d < 10, VerhoeffAlgorithm.pLookup r d < 10 := by decide

/-- Every entry of the inverse table is a digit. -/
theorem invDLookup_lt : ∀ c < 10, VerhoeffAlgorithm.invDLookup c < 10 := by decide

/-- Each column of the multiplication table is injective: distinct
accumulators stay distinct after one multiplication step. -/
theorem dLookup_left_inj : ∀ p < 10, ∀ a < 10, ∀ b < 10, a ≠ b →
    VerhoeffAlgorithm.dLookup a p ≠ VerhoeffAlgorithm.dLookup b p := by decide

/-- The multiplication table is associative (it is the Cayley table of the
dihedral group D5). -/
theorem dLookup_assoc : ∀ a < 10, ∀ b < 10, ∀ c < 10,
    VerhoeffAlgorithm.dLookup (VerhoeffAlgorithm.dLookup a b) c =
      VerhoeffAlgorithm.dLookup a (VerhoeffAlgorithm.dLookup b c) := by decide

/-- `0` is a right identity of the multiplication table. -/
theorem dLookup_zero_right : ∀ c < 10, VerhoeffAlgorithm.dLookup c 0 = c := by decide

/-- `0` is a left identity of the multiplication table. -/
theorem dLookup_zero_left : ∀ c < 10, VerhoeffAlgorithm.dLookup 0 c = c := by decide

/-- Row `0` of the permutation table is the identity permutation. -/
theorem pLookup_zero : ∀ d < 10, VerhoeffAlgorithm.pLookup 0 d = d := by decide

/-- The inverse table produces the left inverse under the multiplication
table: combining `inv_d[c]` with `c` yields the group identity `0`. -/
theorem invDLookup_spec : ∀ c < 10,
    VerhoeffAlgorithm.dLookup (VerhoeffAlgorithm.invDLookup c) c = 0 := by decide

/-- Within one scan step the permuted digit determines the result
injectively: different digits at the same position move the same
accumulator to different values. -/
theorem step_inj_table : ∀ (r : Fin 8) (c a b : Fin 10), a.val ≠ b.val →
    VerhoeffAlgorithm.dLookup c.val (VerhoeffAlgorithm.pLookup r.val a.val) ≠
      VerhoeffAlgorithm.dLookup c.val (VerhoeffAlgorithm.pLookup r.val b.val) := by decide

/-- The defining anti-symmetry of the Verhoeff tables: processing the digit
pair `a, b` at consecutive positions never agrees with processing `b, a`
there, for `a ≠ b`. -/
theorem transp_table : ∀ (r : Fin 8) (c a b : Fin 10), a.val ≠ b.val →
    VerhoeffAlgorithm.dLookup
        (VerhoeffAlgorithm.dLookup c.val (VerhoeffAlgorithm.pLookup r.val a.val))
        (VerhoeffAlgorithm.pLookup ((r.val + 1) % 8) b.val) ≠
      VerhoeffAlgorithm.dLookup
        (VerhoeffAlgorithm.dLookup c.val (VerhoeffAlgorithm.pLookup r.val b.val))
        (VerhoeffAlgorithm.pLookup ((r.val + 1) % 8) a.val) := by decide

/-! ### The scan step -/

/-- A scan step keeps the accumulator a digit. -/
theorem step_lt (i : Nat) {c d : Nat} (hc : c < 10) (hd : d < 10) :
    VerhoeffAlgorithm.step i c d < 10 := by
  have h8 : i % 8 < 8 := Nat.mod_lt _ (by omega)
  exact dLookup_lt c hc _ (pLookup_lt (i % 8) h8 d hd)

/-- A scan step is injective in the digit. -/
theorem step_inj (i : Nat) {c a b : Nat} (hc : c < 10) (ha : a < 10) (hb : b < 10)
    (hab : a ≠ b) : VerhoeffAlgorithm.step i c a ≠ VerhoeffAlgorithm.step i c b := by
  have h8 : i % 8 < 8 := Nat.mod_lt _ (by omega)
  exact step_inj_table ⟨i % 8, h8⟩ ⟨c, hc⟩ ⟨a, ha⟩ ⟨b, hb⟩ hab

/-- A scan step is injective in the accumulator. -/
theorem step_left_inj (i : Nat) {c c' d : Nat} (hc : c < 10) (hc' : c' < 10)
    (hd : d < 10) (h : c ≠ c') :
    VerhoeffAlgorithm.step i c d ≠ VerhoeffAlgorithm.step i c' d := by
  have h8 : i % 8 < 8 := Nat.mod_lt _ (by omega)
  exact dLookup_left_inj _ (pLookup_lt (i % 8) h8 d hd) c hc c' hc' h

/-! ### The structural fold -/

/-- The fold keeps the accumulator a digit. -/
theorem vfold_lt (L : List Nat) : ∀ i {c : Nat}, (∀ d ∈ L, d < 10) → c < 10 →
    vfold L i c < 10 := by
  induction L with
  | nil => intro i c _ hc; exact hc
  | cons d ds ih =>
      intro i c hL hc
      have hd : d < 10 := hL d (by simp)
      exact ih (i + 1) (fun x hx => hL x (by simp [hx])) (step_lt i hc hd)

/-- The fold is injective in the starting accumulator. -/
theorem vfold_inj (L : List Nat) : ∀ i {c c' : Nat}, (∀ d ∈ L, d < 10) →
    c < 10 → c' < 10 → c ≠ c' → vfold L i c ≠ vfold L i c' := by
  induction L with
  | nil => intro i c c' _ _ _ h; exact h
  | cons d ds ih =>
      intro i c c' hL hc hc' h
      have hd : d < 10 := hL d (by simp)
      exact ih (i + 1) (fun x hx => hL x (by simp [hx]))
        (step_lt i hc hd) (step_lt i hc' hd) (step_left_inj i hc hc' hd h)

/-! ### The digit string of a number -/

/-- Every entry of the digit string is a digit. -/
theorem natDigits_mem_lt (num : Nat) : ∀ d ∈ natDigits num, d < 10 := by
  induction num using Nat.strong_induction_on with
  | _ m ih =>
      rw [natDigits_eq]
      by_cases h : m / 10 = 0
      · simp only [h, if_true, List.mem_singleton]
        intro d hd
        omega
      · simp only [h, if_false]
        intro d hd
        rcases List.mem_cons.mp hd with h1 | h1
        · omega
        · exact ih (m / 10) (by omega) d h1

/-- The digit string is never empty: input `0` is scanned as one zero digit. -/
theorem natDigits_length_pos (num : Nat) : 0 < (natDigits num).length := by
  rw [natDigits_eq]
  by_cases h : num / 10 = 0 <;> simp [h]

/-- Reassembling the digit string gives the number back. -/
theorem digitsVal_natDigits (num : Nat) : digitsVal (natDigits num) = num := by
  induction num using Nat.strong_induction_on with
  | _ m ih =>
      rw [natDigits_eq]
      by_cases h : m / 10 = 0
      · simp [h, digitsVal]; omega
      · simp only [h, if_false, digitsVal]
        rw [ih (m / 10) (by omega)]
        omega

/-- The digit string of a number with one digit appended on the right. -/
theorem natDigits_append (n d : Nat) (hd : d < 10) :
    natDigits (n * 10 + d) = if n = 0 then [d] else d :: natDigits n := by
  rw [natDigits_eq]
  have h1 : (n * 10 + d) / 10 = n := by omega
  have h2 : (n * 10 + d) % 10 = d := by omega
  rw [h1, h2]

/-! ### Bridging the loops to the structural fold -/

/-- The Verhoeff scan loop is the structural fold over the digit string. -/
theorem checksumGo_eq_vfold (m : Nat) : ∀ i c,
    VerhoeffAlgorithm.checksumGo m i c = vfold (natDigits m) i c := by
  induction m using Nat.strong_induction_on with
  | _ m ih =>
      intro i c
      have hdig : m - m / 10 * 10 = m % 10 := by omega
      rw [checksumGo_eq, natDigits_eq]
      by_cases h : m / 10 = 0
      · have hm : m % 10 = m := by omega
        simp [h, vfold, hm]
      · simp only [h, if_false]
        rw [hdig, ih (m / 10) (by omega)]
        rfl

/-- `VerhoeffAlgorithm::checksum` as a fold over the digit string. -/
theorem checksum_eq_vfold (num : Nat) :
    VerhoeffAlgorithm.checksum num = vfold (natDigits num) 0 0 :=
  checksumGo_eq_vfold num 0 0

/-- The Verhoeff checksum is always a digit. -/
theorem verhoeff_checksum_lt (num : Nat) : VerhoeffAlgorithm.checksum num < 10 := by
  rw [checksum_eq_vfold]
  exact vfold_lt (natDigits num) 0 (natDigits_mem_lt num) (by omega)

/-! ### Accumulator lemmas for the Luhn scan -/

/-- The Luhn step only adds to the running sum. -/
theorem digitStep_add (i d s : Nat) :
    LuhnAlgorithm.digitStep i d s = s + LuhnAlgorithm.digitStep i d 0 := by
  unfold LuhnAlgorithm.digitStep
  split <;> omega

/-- The Luhn scan loop only adds to the running sum. -/
theorem digitSumGo_add (m : Nat) : ∀ i s,
    LuhnAlgorithm.digitSumGo m i s = s + LuhnAlgorithm.digitSumGo m i 0 := by
  induction m using Nat.strong_induction_on with
  | _ m ih =>
      intro i s
      rw [digitSumGo_eq m i s, digitSumGo_eq m i 0]
      by_cases h : m / 10 = 0
      · rw [if_pos h, if_pos h]
        exact digitStep_add (i + 1) (m - m / 10 * 10) s
      · rw [if_neg h, if_neg h]
        have e1 := ih (m / 10) (by omega) (i + 1)
          (LuhnAlgorithm.digitStep (i + 1) (m - m / 10 * 10) s)
        have e2 := ih (m / 10) (by omega) (i + 1)
          (LuhnAlgorithm.digitStep (i + 1) (m - m / 10 * 10) 0)
        have e3 := digitStep_add (i + 1) (m - m / 10 * 10) s
        omega

/-- Appending a digit on the right of a number ending in `0` adds exactly
that digit to the Luhn digit sum: the appended digit lands on odd position 1
and every other digit keeps its parity. -/
theorem digit_sum_append (n d : Nat) (hd : d < 10) :
    LuhnAlgorithm.digit_sum (n * 10 + d) = d + LuhnAlgorithm.digit_sum (n * 10) := by
  unfold LuhnAlgorithm.digit_sum
  rw [digitSumGo_eq, digitSumGo_eq (n * 10)]
  rw [(by omega : (n * 10 + d) / 10 = n)]
  rw [(by omega : n * 10 + d - n * 10 = d)]
  rw [(by omega : n * 10 / 10 = n)]
  rw [(by omega : n * 10 - n * 10 = 0)]
  simp only [Nat.zero_add]
  have hstep : ∀ x : Nat, LuhnAlgorithm.digitStep 1 x 0 = x := by
    intro x
    simp [LuhnAlgorithm.digitStep]
  by_cases hn : n = 0
  · rw [if_pos hn, if_pos hn, hstep d, hstep 0]
    omega
  · rw [if_neg hn, if_neg hn, hstep d, hstep 0, digitSumGo_add n 1 d]

/-! ### Shared `is_valid` unfoldings -/

/-- `LuhnAlgorithm::is_valid` succeeds exactly when the checksum is zero. -/
theorem luhn_is_valid_iff (num : Nat) :
    LuhnAlgorithm.is_valid num = true ↔ LuhnAlgorithm.checksum num = 0 := by
  simp [LuhnAlgorithm.is_valid]

/-- `VerhoeffAlgorithm::is_valid` succeeds exactly when the checksum is zero. -/
theorem verhoeff_is_valid_iff (num : Nat) :
    VerhoeffAlgorithm.is_valid num = true ↔ VerhoeffAlgorithm.checksum num = 0 := by
  simp [VerhoeffAlgorithm.is_valid]

/-- The Luhn scan loop is the structural fold over the digit string. -/
theorem digitSumGo_eq_luhnFold (m : Nat) : ∀ i s,
    LuhnAlgorithm.digitSumGo m i s = luhnFold (natDigits m) i s := by
  induction m using Nat.strong_induction_on with
  | _ m ih =>
      intro i s
      have hdig : m - m / 10 * 10 = m % 10 := by omega
      rw [digitSumGo_eq, natDigits_eq]
      by_cases h : m / 10 = 0
      · have hm : m % 10 = m := by omega
        simp [h, luhnFold, hm]
      · simp only [h, if_false]
        rw [hdig, ih (m / 10) (by omega)]
        rfl

/-- `LuhnAlgorithm::digit_sum` as a fold over the digit string. -/
theorem digit_sum_eq_luhnFold (num : Nat) :
    LuhnAlgorithm.digit_sum num = luhnFold (natDigits num) 0 0 :=
  digitSumGo_eq_luhnFold num 0 0

/-- Definitional equation of `LuhnAlgorithm::checksum`, for rewriting. -/
theorem luhn_checksum_def (num : Nat) :
    LuhnAlgorithm.checksum num = LuhnAlgorithm.digit_sum num % 10 := rfl

/-- Definitional equation of `LuhnAlgorithm::calculate_check_digit`. -/
theorem luhn_calculate_check_digit_def (num : Nat) :
    LuhnAlgorithm.calculate_check_digit num =
      LuhnAlgorithm.digit_sum (num * 10) * 9 % 10 := rfl

/-- Definitional equation of `VerhoeffAlgorithm::calculate_check_digit`. -/
theorem verhoeff_calculate_check_digit_def (num : Nat) :
    VerhoeffAlgorithm.calculate_check_digit num =
      VerhoeffAlgorithm.invDLookup (VerhoeffAlgorithm.checksum (num * 10)) := rfl

/-! ### Claim theorems (first batch) -/

/-- C1: Luhn round-trip — for every u64 number `n` such that `10*n + 9`
fits in u64, appending the calculated check digit yields a passing
checksum: `luhn.checksum(n*10 + luhn.calculate_check_digit(n)) == 0`. -/
theorem luhn_append_check_digit_passes (n : Nat) (h : 10 * n + 9 ≤ U64_MAX) :
    LuhnAlgorithm.checksum (n * 10 + LuhnAlgorithm.calculate_check_digit n) = 0 := by
  unfold LuhnAlgorithm.checksum LuhnAlgorithm.calculate_check_digit
  rw [digit_sum_append n (LuhnAlgorithm.digit_sum (n * 10) * 9 % 10) (by omega)]
  omega

/-- Witness for C1 at the documented base number 7992739871. -/
theorem luhn_append_check_digit_passes_witness :
    10 * 7992739871 + 9 ≤ U64_MAX ∧
      LuhnAlgorithm.checksum
        (7992739871 * 10 + LuhnAlgorithm.calculate_check_digit 7992739871) = 0 :=
  ⟨by decide, luhn_append_check_digit_passes 7992739871 (by decide)⟩

/-- C5: `is_valid` agrees with `checksum == 0` for both algorithms, on
every input. -/
theorem is_valid_agrees_with_checksum (n : Nat) :
    (LuhnAlgorithm.is_valid n = true ↔ LuhnAlgorithm.checksum n = 0) ∧
      (VerhoeffAlgorithm.is_valid n = true ↔ VerhoeffAlgorithm.checksum n = 0) :=
  ⟨luhn_is_valid_iff n, verhoeff_is_valid_iff n⟩

/-- C8: a single-digit input is scanned as exactly one digit at odd
position 1, so `luhn.checksum(d) == d` for `d` in 0–9, and
`verhoeff.checksum(0) == 0`. -/
theorem single_digit_inputs (d : Nat) (h : d ≤ 9) :
    LuhnAlgorithm.checksum d = d ∧ VerhoeffAlgorithm.checksum 0 = 0 := by
  constructor
  · unfold LuhnAlgorithm.checksum LuhnAlgorithm.digit_sum
    rw [digitSumGo_eq, if_pos (by omega : d / 10 = 0)]
    have hstep : LuhnAlgorithm.digitStep (0 + 1) (d - d / 10 * 10) 0 = d - d / 10 * 10 := by
      simp [LuhnAlgorithm.digitStep]
    rw [hstep]
    omega
  · rw [checksum_eq_vfold]
    have h0 : natDigits 0 = [0] := by simp [natDigits_eq]
    rw [h0]
    decide

/-- Witness for C8 at digit 7. -/
theorem single_digit_inputs_witness :
    7 ≤ 9 ∧ (LuhnAlgorithm.checksum 7 = 7 ∧ VerhoeffAlgorithm.checksum 0 = 0) :=
  ⟨by decide, single_digit_inputs 7 (by decide)⟩

/-- C7: the published test vectors of the crate documentation hold. -/
theorem published_test_vectors :
    LuhnAlgorithm.is_valid 79927398713 = true ∧
      LuhnAlgorithm.calculate_check_digit 7992739871 = 3 ∧
      VerhoeffAlgorithm.calculate_check_digit 236 = 3 ∧
      VerhoeffAlgorithm.is_valid 2363 = true ∧
      VerhoeffAlgorithm.checksum 2363 = 0 := by
  have h1 : natDigits 2363 = [3, 6, 3, 2] := by simp [natDigits_eq]
  have h2 : natDigits 2360 = [0, 6, 3, 2] := by simp [natDigits_eq]
  have hcs : VerhoeffAlgorithm.checksum 2363 = 0 := by
    rw [checksum_eq_vfold, h1]
    decide
  have h3 : natDigits 79927398713 = [3, 1, 7, 8, 9, 3, 7, 2, 9, 9, 7] := by
    simp [natDigits_eq]
  have h4 : natDigits 79927398710 = [0, 1, 7, 8, 9, 3, 7, 2, 9, 9, 7] := by
    simp [natDigits_eq]
  refine ⟨?_, ?_, ?_, ?_, hcs⟩
  · rw [luhn_is_valid_iff, luhn_checksum_def, digit_sum_eq_luhnFold, h3]
    decide
  · rw [luhn_calculate_check_digit_def,
      (by norm_num : (7992739871 : Nat) * 10 = 79927398710), digit_sum_eq_luhnFold, h4]
    decide
  · rw [verhoeff_calculate_check_digit_def,
      (by norm_num : (236 : Nat) * 10 = 2360), checksum_eq_vfold, h2]
    decide
  · rw [verhoeff_is_valid_iff, checksum_eq_vfold, h1]
    decide

/-! ### Claim C6 -/

/-- C6: the Luhn 09↔90 blind spot — swapping the adjacent digit pair 0,9
of the valid number 1099 (at positions 2 and 3, not touching the check
digit at position 1) yields the distinct number 1909 with the same Luhn
checksum, so the altered number is still accepted. -/
theorem luhn_09_90_transposition_blind_spot :
    natDigits 1909 = swapAdj 1 (natDigits 1099) ∧
      (1909 : Nat) ≠ 1099 ∧
      LuhnAlgorithm.checksum 1909 = LuhnAlgorithm.checksum 1099 ∧
      LuhnAlgorithm.is_valid 1099 = true ∧
      LuhnAlgorithm.is_valid 1909 = true := by
  have e1 : natDigits 1909 = [9, 0, 9, 1] := by simp [natDigits_eq]
  have e2 : natDigits 1099 = [9, 9, 0, 1] := by simp [natDigits_eq]
  have c1 : LuhnAlgorithm.checksum 1099 = 0 := by
    rw [luhn_checksum_def, digit_sum_eq_luhnFold, e2]
    decide
  have c2 : LuhnAlgorithm.checksum 1909 = 0 := by
    rw [luhn_checksum_def, digit_sum_eq_luhnFold, e1]
    decide
  refine ⟨?_, by decide, ?_, ?_, ?_⟩
  · rw [e1, e2]
    decide
  · rw [c1, c2]
  · rw [luhn_is_valid_iff]
    exact c1
  · rw [luhn_is_valid_iff]
    exact c2

/-! ### The Verhoeff round trip (claims C2 and C10) -/

/-- The very first scan step from the all-zero state reproduces the digit:
position 0 selects the identity permutation row and the accumulator 0 is
the group identity. -/
theorem step_zero : ∀ x < 10, VerhoeffAlgorithm.step 0 0 x = x := by decide

/-- Digit string of `n * 10` for nonzero `n`: a zero in front of the
digits of `n`. -/
theorem natDigits_mul_ten (n : Nat) (hn : n ≠ 0) :
    natDigits (n * 10) = 0 :: natDigits n := by
  have h := natDigits_append n 0 (by omega)
  rw [if_neg hn] at h
  simpa using h

/-- Starting the fold from a product state factors through the
multiplication table (associativity of the dihedral group transported along
the scan). -/
theorem vfold_dLookup (L : List Nat) : ∀ i {c x : Nat}, (∀ d ∈ L, d < 10) →
    c < 10 → x < 10 →
    vfold L i (VerhoeffAlgorithm.dLookup c x) =
      VerhoeffAlgorithm.dLookup c (vfold L i x) := by
  induction L with
  | nil =>
      intro i c x _ _ _
      rfl
  | cons d ds ih =>
      intro i c x hL hc hx
      have hd : d < 10 := hL d (by simp)
      have h8 : i % 8 < 8 := Nat.mod_lt _ (by omega)
      have hp : VerhoeffAlgorithm.pLookup (i % 8) d < 10 := pLookup_lt _ h8 d hd
      have hassoc : VerhoeffAlgorithm.step i (VerhoeffAlgorithm.dLookup c x) d =
          VerhoeffAlgorithm.dLookup c (VerhoeffAlgorithm.step i x d) :=
        dLookup_assoc c hc x hx _ hp
      show vfold ds (i + 1) (VerhoeffAlgorithm.step i (VerhoeffAlgorithm.dLookup c x) d) = _
      rw [hassoc, ih (i + 1) (fun y hy => hL y (by simp [hy])) hc (step_lt i hx hd)]
      rfl

/-- Core of the Verhoeff round trip, for every number: appending the
calculated check digit drives the checksum to the group identity. -/
theorem verhoeff_roundtrip_core (n : Nat) :
    VerhoeffAlgorithm.checksum (n * 10 + VerhoeffAlgorithm.calculate_check_digit n) = 0 := by
  have hC : VerhoeffAlgorithm.checksum (n * 10) < 10 := verhoeff_checksum_lt (n * 10)
  have hd : VerhoeffAlgorithm.invDLookup (VerhoeffAlgorithm.checksum (n * 10)) < 10 :=
    invDLookup_lt _ hC
  rw [verhoeff_calculate_check_digit_def, checksum_eq_vfold, natDigits_append n _ hd]
  by_cases hn : n = 0
  · subst hn
    rw [if_pos rfl, (by norm_num : (0 : Nat) * 10 = 0)]
    have h0 : VerhoeffAlgorithm.checksum 0 = 0 := by
      rw [checksum_eq_vfold, (by simp [natDigits_eq] : natDigits 0 = [0])]
      decide
    rw [h0]
    decide
  · rw [if_neg hn]
    show vfold (natDigits n) 1
      (VerhoeffAlgorithm.step 0 0
        (VerhoeffAlgorithm.invDLookup (VerhoeffAlgorithm.checksum (n * 10)))) = 0
    rw [step_zero _ hd, ← dLookup_zero_right _ hd,
      vfold_dLookup (natDigits n) 1 (natDigits_mem_lt n) hd (by omega)]
    have hCv : VerhoeffAlgorithm.checksum (n * 10) = vfold (natDigits n) 1 0 := by
      rw [checksum_eq_vfold, natDigits_mul_ten n hn]
      show vfold (natDigits n) 1 (VerhoeffAlgorithm.step 0 0 0) = _
      rw [step_zero 0 (by omega)]
    rw [← hCv]
    exact invDLookup_spec _ hC

/-- C2: Verhoeff round-trip — for every u64 number `n` such that `10*n + 9`
fits in u64, appending the calculated check digit yields a passing
checksum: `verhoeff.checksum(n*10 + verhoeff.calculate_check_digit(n)) == 0`. -/
theorem verhoeff_append_check_digit_passes (n : Nat) (h : 10 * n + 9 ≤ U64_MAX) :
    VerhoeffAlgorithm.checksum (n * 10 + VerhoeffAlgorithm.calculate_check_digit n) = 0 :=
  verhoeff_roundtrip_core n

/-- Witness for C2 at the documented base number 236. -/
theorem verhoeff_append_check_digit_passes_witness :
    10 * 236 + 9 ≤ U64_MAX ∧
      VerhoeffAlgorithm.checksum (236 * 10 + VerhoeffAlgorithm.calculate_check_digit 236) = 0 :=
  ⟨by decide, verhoeff_append_check_digit_passes 236 (by decide)⟩

/-- C10 (implicit): uniqueness of the Verhoeff check digit — for every u64
number `n` with `10*n + 9` in range and every digit `d`, the completed
number `n*10 + d` validates exactly when `d` is the calculated check digit,
so that digit is the unique one accepted. -/
theorem verhoeff_check_digit_unique (n : Nat) (h : 10 * n + 9 ≤ U64_MAX)
    (d : Nat) (hd : d ≤ 9) :
    VerhoeffAlgorithm.is_valid (n * 10 + d) = true ↔
      d = VerhoeffAlgorithm.calculate_check_digit n := by
  have hcdlt : VerhoeffAlgorithm.calculate_check_digit n < 10 :=
    invDLookup_lt _ (verhoeff_checksum_lt (n * 10))
  rw [verhoeff_is_valid_iff]
  constructor
  · intro hv
    by_contra hne
    have hcd0 := verhoeff_roundtrip_core n
    rw [checksum_eq_vfold, natDigits_append n d (by omega)] at hv
    rw [checksum_eq_vfold, natDigits_append n _ hcdlt] at hcd0
    by_cases hn : n = 0
    · rw [if_pos hn] at hv hcd0
      rw [show vfold [d] 0 0 = VerhoeffAlgorithm.step 0 0 d from rfl,
        step_zero d (by omega)] at hv
      rw [show vfold [VerhoeffAlgorithm.calculate_check_digit n] 0 0 =
          VerhoeffAlgorithm.step 0 0 (VerhoeffAlgorithm.calculate_check_digit n) from rfl,
        step_zero _ hcdlt] at hcd0
      exact hne (hv.trans hcd0.symm)
    · rw [if_neg hn] at hv hcd0
      change vfold (natDigits n) 1 (VerhoeffAlgorithm.step 0 0 d) = 0 at hv
      change vfold (natDigits n) 1
        (VerhoeffAlgorithm.step 0 0 (VerhoeffAlgorithm.calculate_check_digit n)) = 0 at hcd0
      rw [step_zero d (by omega)] at hv
      rw [step_zero _ hcdlt] at hcd0
      exact vfold_inj (natDigits n) 1 (natDigits_mem_lt n) (by omega) hcdlt hne
        (hv.trans hcd0.symm)
  · intro he
    rw [he]
    exact verhoeff_roundtrip_core n

/-- Witness for C10 at `n = 236`, `d = 3`. -/
theorem verhoeff_check_digit_unique_witness :
    10 * 236 + 9 ≤ U64_MAX ∧ 3 ≤ 9 ∧
      (VerhoeffAlgorithm.is_valid (236 * 10 + 3) = true ↔
        3 = VerhoeffAlgorithm.calculate_check_digit 236) :=
  ⟨by decide, by decide, verhoeff_check_digit_unique 236 (by decide) 3 (by decide)⟩

/-! ### Claim C9: termination and iteration count of the scan loops -/

/-- One-step unfolding of the iteration counter. -/
theorem scanIters_eq (num : Nat) :
    scanIters num = if num / 10 = 0 then 1 else 1 + scanIters (num / 10) := by
  rw [scanIters]
  rfl

/-- The loop runs exactly one iteration per decimal digit of the input. -/
theorem scanIters_eq_length (num : Nat) :
    scanIters num = (natDigits num).length := by
  induction num using Nat.strong_induction_on with
  | _ m ih =>
      rw [scanIters_eq, natDigits_eq]
      by_cases h : m / 10 = 0
      · simp [h]
      · simp only [h, if_false, List.length_cons]
        rw [ih (m / 10) (by omega)]
        omega

/-- A number below `10 ^ k` has at most `k` decimal digits (for `k ≥ 1`). -/
theorem natDigits_length_le (num : Nat) : ∀ k, 1 ≤ k → num < 10 ^ k →
    (natDigits num).length ≤ k := by
  induction num using Nat.strong_induction_on with
  | _ m ih =>
      intro k hk hlt
      rw [natDigits_eq]
      by_cases h : m / 10 = 0
      · simp only [h, if_true, List.length_singleton]
        omega
      · simp only [h, if_false, List.length_cons]
        have hm : 10 ≤ m := by omega
        have hk2 : 2 ≤ k := by
          by_contra hc
          have hk1 : k = 1 := by omega
          subst hk1
          simp [pow_one] at hlt
          omega
        have hpow : (10 : Nat) ^ (k - 1) * 10 = 10 ^ k := by
          rw [← pow_succ]
          congr 1
          omega
        have hdivlt : m / 10 < 10 ^ (k - 1) := by
          rw [Nat.div_lt_iff_lt_mul (by omega : (0 : Nat) < 10)]
          omega
        have := ih (m / 10) (by omega) (k - 1) (by omega) hdivlt
        omega

/-- C9: for every u64 input the scan loop shared by `digit_sum` and the
Verhoeff `checksum` (a total function in this embedding, so it terminates)
runs exactly one iteration per decimal digit of the input, at least one
iteration — also on input 0, whose digit string is the single digit
`[0]` — and at most 20 iterations. -/
theorem scan_loop_iteration_count (num : Nat) (h : num ≤ U64_MAX) :
    scanIters num = (natDigits num).length ∧
      1 ≤ scanIters num ∧
      scanIters num ≤ 20 ∧
      scanIters 0 = 1 := by
  have hlen := scanIters_eq_length num
  have hpos := natDigits_length_pos num
  have hle : (natDigits num).length ≤ 20 := by
    apply natDigits_length_le num 20 (by omega)
    have h20 : (10 : Nat) ^ 20 = 100000000000000000000 := by norm_num
    have hu : U64_MAX = 18446744073709551615 := by norm_num [U64_MAX]
    omega
  refine ⟨hlen, by omega, by omega, ?_⟩
  rw [scanIters_eq]
  norm_num

/-- Witness for C9 at the documented account number. -/
theorem scan_loop_iteration_count_witness :
    79927398713 ≤ U64_MAX ∧
      (scanIters 79927398713 = (natDigits 79927398713).length ∧
        1 ≤ scanIters 79927398713 ∧
        scanIters 79927398713 ≤ 20 ∧
        scanIters 0 = 1) :=
  ⟨by decide, scan_loop_iteration_count 79927398713 (by decide)⟩

/-! ### Claim C4: totality and in-range arithmetic within u64 -/

/-- In-range permutation-table indexings never hit the bounds check. -/
theorem pLookupChecked_eq : ∀ r < 8, ∀ d < 10,
    pLookupChecked r d = some (VerhoeffAlgorithm.pLookup r d) := by decide

/-- In-range multiplication-table indexings never hit the bounds check. -/
theorem dLookupChecked_eq : ∀ c < 10, ∀ p < 10,
    dLookupChecked c p = some (VerhoeffAlgorithm.dLookup c p) := by decide

/-- One-step unfolding of the bounds-checked Verhoeff scan loop. -/
theorem checksumGoChecked_unfold (m i c : Nat) :
    checksumGoChecked m i c =
      (pLookupChecked (i % 8) (m - m / 10 * 10)).bind (fun p =>
        (dLookupChecked c p).bind (fun c2 =>
          if m / 10 = 0 then some c2
          else checksumGoChecked (m / 10) (i + 1) c2)) := by
  rw [checksumGoChecked]
  rfl

/-- The bounds-checked Verhoeff scan never panics and agrees with the
unchecked scan, for every input and every digit accumulator. -/
theorem checksumGoChecked_eq (m : Nat) : ∀ i c, c < 10 →
    checksumGoChecked m i c = some (VerhoeffAlgorithm.checksumGo m i c) := by
  induction m using Nat.strong_induction_on with
  | _ m ih =>
      intro i c hc
      have hdig : m - m / 10 * 10 < 10 := by omega
      have h8 : i % 8 < 8 := Nat.mod_lt _ (by omega)
      have hp : VerhoeffAlgorithm.pLookup (i % 8) (m - m / 10 * 10) < 10 :=
        pLookup_lt _ h8 _ hdig
      rw [checksumGoChecked_unfold, checksumGo_eq, pLookupChecked_eq _ h8 _ hdig]
      simp only [Option.bind]
      rw [dLookupChecked_eq _ hc _ hp]
      simp only [Option.bind]
      by_cases h : m / 10 = 0
      · rw [if_pos h, if_pos h]
        rfl
      · rw [if_neg h, if_neg h]
        exact ih (m / 10) (by omega) (i + 1) _ (step_lt i hc hdig)

/-- Each Luhn scan step adds at most 9 to the running sum. -/
theorem luhnFold_le (L : List Nat) : ∀ i s, (∀ d ∈ L, d < 10) →
    luhnFold L i s ≤ s + 9 * L.length := by
  induction L with
  | nil =>
      intro i s _
      simp [luhnFold]
  | cons d ds ih =>
      intro i s hL
      have hd : d < 10 := hL d (by simp)
      have hstep : LuhnAlgorithm.digitStep (i + 1) d s ≤ s + 9 := by
        unfold LuhnAlgorithm.digitStep
        split
        · split <;> omega
        · omega
      have h1 := ih (i + 1) (LuhnAlgorithm.digitStep (i + 1) d s)
        (fun x hx => hL x (by simp [hx]))
      show luhnFold ds (i + 1) (LuhnAlgorithm.digitStep (i + 1) d s) ≤ _
      simp only [List.length_cons]
      omega

/-- Within u64 the Luhn digit sum never exceeds 180 = 9 × 20 digits, so the
`u32` accumulator of the source cannot overflow. -/
theorem digit_sum_le (num : Nat) (h : num ≤ U64_MAX) :
    LuhnAlgorithm.digit_sum num ≤ 180 := by
  rw [digit_sum_eq_luhnFold]
  have hlen : (natDigits num).length ≤ 20 := by
    apply natDigits_length_le num 20 (by omega)
    have h20 : (10 : Nat) ^ 20 = 100000000000000000000 := by norm_num
    have hu : U64_MAX = 18446744073709551615 := by norm_num [U64_MAX]
    omega
  have := luhnFold_le (natDigits num) 0 0 (natDigits_mem_lt num)
  omega

/-- C4 counterexample: the largest u64 value is a representable input, yet
inside `calculate_check_digit` the multiplication `num * 10` does not stay
in u64 range there, so the u64-checked models of both operations fail —
the claim's "for every u64 input" is too strong. -/
theorem calc_check_digit_mul_overflow_cx :
    U64_MAX ≤ U64_MAX ∧
      ¬ U64_MAX * 10 ≤ U64_MAX ∧
      luhnCalcCheckDigitU64 U64_MAX = none ∧
      verhoeffCalcCheckDigitU64 U64_MAX = none :=
  ⟨by decide, by decide, by decide, by decide⟩

/-- C4 (amended): for every representable u64 input, `checksum` and
`is_valid` of both algorithms complete without failing — every Verhoeff
table indexing stays in range, and the Luhn `u32` sum and its `sum * 9`
stay in range — while the two `calculate_check_digit` operations complete
without failing whenever their internal `num * 10` also fits in u64
(`num ≤ (2^64-1)/10`), the one restriction the counterexample forces. -/
theorem operations_total_within_u64 (num : Nat) (h : num ≤ U64_MAX) :
    checksumGoChecked num 0 0 = some (VerhoeffAlgorithm.checksum num) ∧
      LuhnAlgorithm.digit_sum num ≤ 180 ∧
      LuhnAlgorithm.digit_sum num * 9 < 2 ^ 32 ∧
      (num * 10 ≤ U64_MAX →
        luhnCalcCheckDigitU64 num = some (LuhnAlgorithm.calculate_check_digit num) ∧
        verhoeffCalcCheckDigitU64 num = some (VerhoeffAlgorithm.calculate_check_digit num)) := by
  have hds := digit_sum_le num h
  refine ⟨checksumGoChecked_eq num 0 0 (by omega), hds, by omega, fun h10 => ⟨?_, ?_⟩⟩
  · unfold luhnCalcCheckDigitU64
    rw [if_pos h10]
  · unfold verhoeffCalcCheckDigitU64
    rw [if_pos h10]

/-- Witness for the amended C4 at input 236. -/
theorem operations_total_within_u64_witness :
    236 ≤ U64_MAX ∧
      (checksumGoChecked 236 0 0 = some (VerhoeffAlgorithm.checksum 236) ∧
        LuhnAlgorithm.digit_sum 236 ≤ 180 ∧
        LuhnAlgorithm.digit_sum 236 * 9 < 2 ^ 32 ∧
        (236 * 10 ≤ U64_MAX →
          luhnCalcCheckDigitU64 236 = some (LuhnAlgorithm.calculate_check_digit 236) ∧
          verhoeffCalcCheckDigitU64 236 = some (VerhoeffAlgorithm.calculate_check_digit 236))) :=
  ⟨by decide, operations_total_within_u64 236 (by decide)⟩

/-! ### Claim C3: Verhoeff error detection -/

/-- Writing back the entry already at position `k` changes nothing. -/
theorem set_getD_self (L : List Nat) : ∀ k, L.set k (L.getD k 0) = L := by
  induction L with
  | nil =>
      intro k
      cases k <;> rfl
  | cons a t ih =>
      intro k
      cases k with
      | zero => rfl
      | succ k =>
          show a :: t.set k (t.getD k 0) = a :: t
          rw [ih k]

/-- Swapping two equal adjacent entries changes nothing. -/
theorem swapAdj_self (L : List Nat) : ∀ k, L.getD k 0 = L.getD (k + 1) 0 →
    swapAdj k L = L := by
  induction L with
  | nil =>
      intro k _
      cases k <;> rfl
  | cons a t ih =>
      intro k h
      cases k with
      | zero =>
          cases t with
          | nil => rfl
          | cons b t2 =>
              have hab : a = b := h
              rw [show swapAdj 0 (a :: b :: t2) = b :: a :: t2 from rfl, hab]
      | succ k =>
          show a :: swapAdj k t = a :: t
          rw [ih k h]

/-- Two consecutive scan steps applied to the digit pair `a, b` and to the
swapped pair `b, a` always disagree when `a ≠ b`. -/
theorem step_two_ne (i : Nat) {c a b : Nat} (hc : c < 10) (ha : a < 10)
    (hb : b < 10) (hab : a ≠ b) :
    VerhoeffAlgorithm.step (i + 1) (VerhoeffAlgorithm.step i c a) b ≠
      VerhoeffAlgorithm.step (i + 1) (VerhoeffAlgorithm.step i c b) a := by
  have h8 : i % 8 < 8 := Nat.mod_lt _ (by omega)
  have hmod : (i + 1) % 8 = (i % 8 + 1) % 8 := by omega
  unfold VerhoeffAlgorithm.step
  rw [hmod]
  exact transp_table ⟨i % 8, h8⟩ ⟨c, hc⟩ ⟨a, ha⟩ ⟨b, hb⟩ hab

/-- Substituting a different digit at one position changes the fold. -/
theorem vfold_set_ne (L : List Nat) : ∀ k i {c b : Nat}, (∀ d ∈ L, d < 10) →
    c < 10 → b < 10 → k < L.length → b ≠ L.getD k 0 →
    vfold (L.set k b) i c ≠ vfold L i c := by
  induction L with
  | nil =>
      intro k i c b _ _ _ hk _
      simp at hk
  | cons d ds ih =>
      intro k i c b hL hc hb hk hbne
      have hd : d < 10 := hL d (by simp)
      cases k with
      | zero =>
          show vfold ds (i + 1) (VerhoeffAlgorithm.step i c b) ≠
            vfold ds (i + 1) (VerhoeffAlgorithm.step i c d)
          exact vfold_inj ds (i + 1) (fun x hx => hL x (by simp [hx]))
            (step_lt i hc hb) (step_lt i hc hd) (step_inj i hc hb hd hbne)
      | succ k =>
          show vfold (ds.set k b) (i + 1) (VerhoeffAlgorithm.step i c d) ≠
            vfold ds (i + 1) (VerhoeffAlgorithm.step i c d)
          exact ih k (i + 1) (fun x hx => hL x (by simp [hx]))
            (step_lt i hc hd) hb
            (by simp only [List.length_cons] at hk; omega) hbne

/-- Swapping two distinct adjacent digits changes the fold. -/
theorem vfold_swap_ne (L : List Nat) : ∀ k i {c : Nat}, (∀ d ∈ L, d < 10) →
    c < 10 → k + 1 < L.length → L.getD k 0 ≠ L.getD (k + 1) 0 →
    vfold (swapAdj k L) i c ≠ vfold L i c := by
  induction L with
  | nil =>
      intro k i c _ _ hk _
      simp at hk
  | cons a t ih =>
      intro k i c hL hc hk hne
      have ha : a < 10 := hL a (by simp)
      cases k with
      | zero =>
          cases t with
          | nil => simp at hk
          | cons b t2 =>
              have hb : b < 10 := hL b (by simp)
              show vfold t2 (i + 1 + 1)
                  (VerhoeffAlgorithm.step (i + 1) (VerhoeffAlgorithm.step i c b) a) ≠
                vfold t2 (i + 1 + 1)
                  (VerhoeffAlgorithm.step (i + 1) (VerhoeffAlgorithm.step i c a) b)
              have hab : a ≠ b := hne
              exact vfold_inj t2 (i + 1 + 1) (fun x hx => hL x (by simp [hx]))
                (step_lt (i + 1) (step_lt i hc hb) ha)
                (step_lt (i + 1) (step_lt i hc ha) hb)
                ((step_two_ne i hc ha hb hab).symm)
      | succ k =>
          show vfold (swapAdj k t) (i + 1) (VerhoeffAlgorithm.step i c a) ≠
            vfold t (i + 1) (VerhoeffAlgorithm.step i c a)
          exact ih k (i + 1) (fun x hx => hL x (by simp [hx]))
            (step_lt i hc ha)
            (by simp only [List.length_cons] at hk; omega) hne

/-- The digit string determines the number. -/
theorem natDigits_inj {a b : Nat} (h : natDigits a = natDigits b) : a = b := by
  have hv := congrArg digitsVal h
  rwa [digitsVal_natDigits, digitsVal_natDigits] at hv

/-- C3 counterexample: swapping the two leading digits of the Verhoeff-valid
number 10003 produces the digit string 01003, i.e. the u64 number 1003,
which is also Verhoeff-valid — so the claim fails, as stated, for adjacent
swaps that move a zero into the leading position (shrinking the digit
count). -/
theorem verhoeff_swap_undetected_cx :
    VerhoeffAlgorithm.is_valid 10003 = true ∧
      digitsVal (swapAdj 3 (natDigits 10003)) = 1003 ∧
      (1003 : Nat) ≠ 10003 ∧
      VerhoeffAlgorithm.is_valid 1003 = true := by
  have e1 : natDigits 10003 = [3, 0, 0, 0, 1] := by simp [natDigits_eq]
  have e2 : natDigits 1003 = [3, 0, 0, 1] := by simp [natDigits_eq]
  refine ⟨?_, ?_, by decide, ?_⟩
  · rw [verhoeff_is_valid_iff, checksum_eq_vfold, e1]
    decide
  · rw [e1]
    decide
  · rw [verhoeff_is_valid_iff, checksum_eq_vfold, e2]
    decide

/-- C3 (amended): Verhoeff detects every single-digit substitution that
keeps the digit count and every adjacent-digit transposition that keeps the
digit count (the restriction the counterexample forces: the swap must not
move a zero into the leading position): whenever `n` validates and `n' ≠ n`
has the digit string of `n` with one digit replaced, or with two adjacent
digits swapped, `n'` does not validate. -/
theorem verhoeff_detects_same_length_alterations (n n' : Nat)
    (hn : n ≤ U64_MAX) (hn' : n' ≤ U64_MAX) (hne : n' ≠ n)
    (halter :
      (∃ k b, k < (natDigits n).length ∧ b < 10 ∧
        natDigits n' = (natDigits n).set k b) ∨
      (∃ k, k + 1 < (natDigits n).length ∧
        natDigits n' = swapAdj k (natDigits n)))
    (hv : VerhoeffAlgorithm.is_valid n = true) :
    VerhoeffAlgorithm.is_valid n' = false := by
  rw [verhoeff_is_valid_iff] at hv
  have key : VerhoeffAlgorithm.checksum n' ≠ VerhoeffAlgorithm.checksum n := by
    rw [checksum_eq_vfold, checksum_eq_vfold]
    rcases halter with ⟨k, b, hk, hb, hset⟩ | ⟨k, hk, hswap⟩
    · have hbne : b ≠ (natDigits n).getD k 0 := by
        intro hbe
        apply hne
        apply natDigits_inj
        rw [hset, hbe, set_getD_self]
      rw [hset]
      exact vfold_set_ne (natDigits n) k 0 (natDigits_mem_lt n) (by omega) hb hk hbne
    · have hgne : (natDigits n).getD k 0 ≠ (natDigits n).getD (k + 1) 0 := by
        intro he
        apply hne
        apply natDigits_inj
        rw [hswap, swapAdj_self _ _ he]
      rw [hswap]
      exact vfold_swap_ne (natDigits n) k 0 (natDigits_mem_lt n) (by omega) hk hgne
  have hnz : VerhoeffAlgorithm.checksum n' ≠ 0 := fun h0 => key (h0.trans hv.symm)
  simpa [VerhoeffAlgorithm.is_valid] using hnz

/-- Witness for the amended C3: substituting the check digit 3 of the valid
number 2363 by 4 is rejected. -/
theorem verhoeff_detects_same_length_alterations_witness :
    2363 ≤ U64_MAX ∧ 2364 ≤ U64_MAX ∧ (2364 : Nat) ≠ 2363 ∧
      VerhoeffAlgorithm.is_valid 2363 = true ∧
      VerhoeffAlgorithm.is_valid 2364 = false := by
  have e1 : natDigits 2363 = [3, 6, 3, 2] := by simp [natDigits_eq]
  have e2 : natDigits 2364 = [4, 6, 3, 2] := by simp [natDigits_eq]
  have hv : VerhoeffAlgorithm.is_valid 2363 = true := by
    rw [verhoeff_is_valid_iff, checksum_eq_vfold, e1]
    decide
  have halter : (∃ k b, k < (natDigits 2363).length ∧ b < 10 ∧
      natDigits 2364 = (natDigits 2363).set k b) ∨
      (∃ k, k + 1 < (natDigits 2363).length ∧
        natDigits 2364 = swapAdj k (natDigits 2363)) := by
    left
    refine ⟨0, 4, ?_, by omega, ?_⟩
    · rw [e1]
      decide
    · rw [e1, e2]
      decide
  exact ⟨by decide, by decide, by decide, hv,
    verhoeff_detects_same_length_alterations 2363 2364 (by decide) (by decide)
      (by decide) halter hv⟩
